import Mathlib

/-!
Verification of the cross-context audio-control protocol of the
quran-chrome-extension repository.

The Playback Host (offscreen document, `offscreen.ts`) and the Controller
Client (`src/lib/audioService.ts`) are embedded shallowly: every handler is
a pure function from the pre-state and the relevant channel/resource inputs
to the post-state, the response sent back, and the list of messages emitted
on the runtime channel.
-/

/-- Substring machinery: JavaScript `String.prototype.includes`. -/
def charsPre : List Char → List Char → Bool
  | [], _ => true
  | _ :: _, [] => false
  | a :: as, b :: bs => a == b && charsPre as bs

/-- Does `s` contain `pat` as a contiguous sublist. -/
def charsSub (pat s : List Char) : Bool :=
  match s with
  | [] => charsPre pat []
  | b :: bs => charsPre pat (b :: bs) || charsSub pat bs

/-- `strHasSub s pat` models the JavaScript test `s.includes(pat)`. -/
def strHasSub (s pat : String) : Bool :=
  charsSub pat.data s.data

/-- `strOr s fb` models the JavaScript expression `s || fb` on strings:
the empty string is falsy. -/
def strOr (s fb : String) : String :=
  if s = "" then fb else s

/-- A JavaScript number, as far as the audio protocol inspects it:
NaN, the two infinities, or a finite value (modelled as a rational). -/
inductive JSNum where
  | nan
  | posInf
  | negInf
  | fin (q : ℚ)
deriving DecidableEq, Repr

/-- JavaScript global `isFinite`. -/
def JSNum.isFinite : JSNum → Bool
  | .fin _ => true
  | _ => false

/-- JavaScript `<=` on numbers: any comparison with NaN is false. -/
def jsLe : JSNum → JSNum → Bool
  | .nan, _ => false
  | _, .nan => false
  | .negInf, _ => true
  | _, .negInf => false
  | _, .posInf => true
  | .posInf, _ => false
  | .fin a, .fin b => decide (a ≤ b)

/-- The finite value carried by a `JSNum` (junk value 0 otherwise; only
used under an `isFinite` guard, as in the source). -/
def JSNum.toQ : JSNum → ℚ
  | .fin q => q
  | _ => 0

/-! ## Playback Host (offscreen document) -/

/-- The `HTMLAudioElement` owned by the offscreen document, as far as the
offscreen script reads or writes it.  `src = none` models the empty
`src` of a freshly constructed element. -/
structure AudioElem where
  src : Option String
  volume : ℚ
  paused : Bool
  currentTime : ℚ
  readyState : Nat
deriving DecidableEq, Repr

/-- The offscreen document's module-level `currentState` object. -/
structure OffState where
  isPlaying : Bool
  currentTime : ℚ
  duration : ℚ
  volume : ℚ
  isMuted : Bool
  url : Option String
deriving DecidableEq, Repr

/-- The whole offscreen document: its `currentState` and its (possibly
not yet created) audio element. -/
structure Host where
  state : OffState
  audio : Option AudioElem
deriving DecidableEq, Repr

/-- The snapshot carried by an `AUDIO_STATE_UPDATE` broadcast (the
`state` field of `broadcastState`): everything except `url`. -/
structure PubState where
  isPlaying : Bool
  currentTime : ℚ
  duration : ℚ
  volume : ℚ
  isMuted : Bool
deriving DecidableEq, Repr

/-- `broadcastState`'s payload for a given `currentState`. -/
def snapshot (s : OffState) : PubState :=
  ⟨s.isPlaying, s.currentTime, s.duration, s.volume, s.isMuted⟩

/-- Messages the offscreen document emits on the runtime channel, plus its
fire-and-forget preference-store write. -/
inductive HostEmit where
  | stateUpdate (s : PubState)
  | audioEnded
  | audioError
  | storageSetVolume (v : ℚ)
deriving DecidableEq, Repr

/-- Discriminator for `AUDIO_STATE_UPDATE` broadcasts. -/
def HostEmit.isStateUpd : HostEmit → Bool
  | .stateUpdate _ => true
  | _ => false

/-- Discriminator for the `AUDIO_ENDED` notification. -/
def HostEmit.isEnded : HostEmit → Bool
  | .audioEnded => true
  | _ => false

/-- A response delivered through `sendResponse`. -/
inductive HostResp where
  | ok
  | okState (s : PubState)
  | err (msg : String)
deriving DecidableEq, Repr

/-- `createAudioElement`: return the existing element, or create a fresh
one (empty `src`, volume taken from `currentState.volume`, paused, at
time 0, `readyState` 0). -/
def createAudioElement (h : Host) : Host × AudioElem :=
  match h.audio with
  | some a => (h, a)
  | none =>
    let a : AudioElem := ⟨none, h.state.volume, true, 0, 0⟩
    (⟨h.state, some a⟩, a)

/-- `audioElement.pause()`: if the element was not already paused it
becomes paused and the registered pause listener runs, which sets
`currentState.isPlaying = false` and broadcasts. -/
def elemPause (h : Host) : Host × List HostEmit :=
  match h.audio with
  | none => (h, [])
  | some a =>
    if a.paused then (h, [])
    else
      let s := { h.state with isPlaying := false }
      (⟨s, some { a with paused := true }⟩, [.stateUpdate (snapshot s)])

/-- The asynchronous outcome of binding and loading a new `src`: the
`canplay` event fires first, the `error` event fires first, or the 5 s
timeout fires first with the element at the given `readyState`. -/
inductive LoadOutcome where
  | canplay
  | errorEvt
  | timeout (rs : Nat)
deriving DecidableEq, Repr

/-- The `LOAD_AUDIO` message handler.  `url?` is the message's `url`
field (`none` for an absent field; the empty string is equally falsy).
The handler mutates `currentState.url / isPlaying / currentTime`
eagerly, pauses and rebinds the element, then responds according to the
load outcome.  On the `error` event the element's permanent error
listener additionally emits `AUDIO_ERROR`. -/
def handleLoad (h : Host) (url? : Option String) (oc : LoadOutcome) :
    Host × HostResp × List HostEmit :=
  match url? with
  | none => (h, .err "No URL provided", [])
  | some u =>
    if u = "" then (h, .err "No URL provided", [])
    else
      let (h1, a) := createAudioElement h
      if h1.state.url = some u && a.src == some u then
        (h1, .ok, [])
      else
        let h2 : Host :=
          ⟨{ h1.state with url := some u, isPlaying := false, currentTime := 0 },
           h1.audio⟩
        let (h3, ems) := elemPause h2
        let h4 : Host :=
          match h3.audio with
          | some a3 => ⟨h3.state, some { a3 with src := some u }⟩
          | none => h3
        match oc with
        | .canplay => (h4, .ok, ems)
        | .errorEvt => (h4, .err "Failed to load audio", ems ++ [.audioError])
        | .timeout rs =>
          if 3 ≤ rs then (h4, .ok, ems)
          else (h4, .err "Audio load timeout", ems)

/-- The `SET_TIME` message handler: requires the element to exist and the
time to be finite and non-negative. -/
def handleSetTime (h : Host) (time : JSNum) :
    Host × HostResp × List HostEmit :=
  match h.audio with
  | some a =>
    if time.isFinite && jsLe (.fin 0) time then
      let t := time.toQ
      (⟨{ h.state with currentTime := t }, some { a with currentTime := t }⟩,
       .ok, [])
    else (h, .err "Invalid time", [])
  | none => (h, .err "Invalid time", [])

/-- Validity test of the `SET_VOLUME` handler:
`isFinite(volume) && volume >= 0 && volume <= 1`. -/
def volOk (v : JSNum) : Bool :=
  v.isFinite && jsLe (.fin 0) v && jsLe v (.fin 1)

/-- The `SET_VOLUME` message handler.  `sa` models the availability of
`chrome.storage.local` (the fire-and-forget persistence of the volume). -/
def handleSetVolume (h : Host) (vol : JSNum) (sa : Bool) :
    Host × HostResp × List HostEmit :=
  if volOk vol then
    let q := vol.toQ
    let h1 : Host :=
      ⟨{ h.state with volume := q },
       match h.audio with
       | some a => some { a with volume := q }
       | none => none⟩
    (h1, .ok, if sa then [.storageSetVolume q] else [])
  else (h, .err "Invalid volume", [])

/-- The `SET_MUTED` message handler: stores the flag and applies the
effective gain `muted ? 0 : currentState.volume` to the element. -/
def handleSetMuted (h : Host) (muted : Bool) :
    Host × HostResp × List HostEmit :=
  let s := { h.state with isMuted := muted }
  let h1 : Host :=
    ⟨s,
     match h.audio with
     | some a => some { a with volume := if muted then 0 else s.volume }
     | none => none⟩
  (h1, .ok, [])

/-- The `GET_STATE` message handler: always succeeds with a snapshot. -/
def handleGetState (h : Host) : Host × HostResp × List HostEmit :=
  (h, .okState (snapshot h.state), [])

/-- The audio element's `ended` listener: reset
`isPlaying`/`currentTime`, broadcast, then emit `AUDIO_ENDED`. -/
def handleEnded (h : Host) : Host × List HostEmit :=
  match h.audio with
  | none => (h, [])
  | some _ =>
    let s := { h.state with isPlaying := false, currentTime := 0 }
    (⟨s, h.audio⟩, [.stateUpdate (snapshot s), .audioEnded])

/-! ## Controller Client (`audioService.ts`) -/

/-- A response object delivered through the runtime channel to the
client: only the fields `sendMessageToOffscreen`'s callers look at. -/
inductive Payload where
  | obj (success : Bool) (error : Option String)
deriving DecidableEq, Repr

/-- The outcome the client observes when it resolves or rejects a send. -/
inductive ClientResult where
  | resolved (p : Payload)
  | rejected (msg : String)
deriving DecidableEq, Repr

/-- The channel's behaviour for one `ensureOffscreenDocument` run:
the two `chrome.offscreen.hasDocument()` answers, the `CREATE_OFFSCREEN`
callback (`none` = never fires; otherwise its time in ms from the send
and `chrome.runtime.lastError`'s message), and the `PING` callback
(time, error, and the response's `ready` flag when a response object is
delivered). -/
structure EnsureEnv where
  hasDoc1 : Bool
  createCb : Option (Nat × Option String)
  hasDoc2 : Bool
  pingCb : Option (Nat × Option String × Option Bool)
deriving DecidableEq, Repr

/-- Settle time of the `PING` step: a 1000 ms timer resolves the wait;
an earlier callback resolves immediately on a ready response and after a
200 ms settle delay otherwise. -/
def pingElapsed : Option (Nat × Option String × Option Bool) → Nat
  | none => 1000
  | some (t, e, r) =>
    if 1000 ≤ t then 1000
    else if e == none && r == some true then t else t + 200

/-- Wall-clock milliseconds spent in `ensureOffscreenDocument`.  The
creation wait resolves at the earlier of (callback + 300 ms settle) and
the unconditional 500 ms fallback; a creation callback carrying an error
other than a closed message port rejects the wait, which the outer catch
turns into a plain 300 ms delay (skipping the ping).  The function never
rejects when the chrome APIs exist. -/
def ensureElapsed (env : EnsureEnv) : Nat :=
  if env.hasDoc1 then pingElapsed env.pingCb
  else
    match env.createCb with
    | none => 500 + (if env.hasDoc2 then pingElapsed env.pingCb else 0)
    | some (t, e) =>
      if 500 ≤ t then 500 + (if env.hasDoc2 then pingElapsed env.pingCb else 0)
      else
        match e with
        | some msg =>
          if strHasSub (strOr msg "Unknown error") "message port closed" then
            min (t + 300) 500 + (if env.hasDoc2 then pingElapsed env.pingCb else 0)
          else t + 300
        | none =>
          min (t + 300) 500 + (if env.hasDoc2 then pingElapsed env.pingCb else 0)

/-- The channel's behaviour for one `sendMessageToOffscreen` call:
whether the chrome runtime APIs exist, the ensure run before the send,
the first send's callback (time, `lastError` message, response), the
ensure run inside the retry branch, and the resent message's callback. -/
structure SendEnv where
  chromeOk : Bool
  ensure1 : EnsureEnv
  first : Option (Nat × Option String × Option Payload)
  ensure2 : EnsureEnv
  retryCb : Option (Nat × Option String × Option Payload)
deriving DecidableEq, Repr

/-- The condition under which the first send's error triggers the
bootstrap-and-resend branch:
`message.type !== CREATE_OFFSCREEN && !errorMsg.includes(...)`. -/
def retryCond (msgType errMsg : String) : Bool :=
  !(msgType == "CREATE_OFFSCREEN") && !(strHasSub errMsg "Could not establish connection")

/-- What one `sendMessageToOffscreen` call produces: the settled result
and its wall-clock time (`none` when the promise never settles), and how
many times the command was resent. -/
structure SendOut where
  outcome : Option (ClientResult × Nat)
  resends : Nat
deriving DecidableEq, Repr

/-- `sendMessageToOffscreen`.  The 5000 ms timer rejects the promise if
the first callback has not fired by then (a later callback can still
trigger a background resend, but cannot change the settled result).  An
early callback clears the timer; an error then either enters the
retry branch (whose resent message has no timer of its own) or rejects
at once; an absent error resolves, with an absent response normalised to
`{success: true}`. -/
def sendRun (msgType : String) (env : SendEnv) : SendOut :=
  if !env.chromeOk then
    ⟨some (.rejected "Chrome runtime API is not available", 0), 0⟩
  else
    let e1 := ensureElapsed env.ensure1
    match env.first with
    | none => ⟨some (.rejected "Message timeout: No response received", e1 + 5000), 0⟩
    | some (t, e, r) =>
      if 5000 ≤ t then
        ⟨some (.rejected "Message timeout: No response received", e1 + 5000),
         match e with
         | some msg => if retryCond msgType (strOr msg "Unknown error") then 1 else 0
         | none => 0⟩
      else
        match e with
        | some msg =>
          let m := strOr msg "Unknown error"
          if retryCond msgType m then
            let e2 := ensureElapsed env.ensure2
            match env.retryCb with
            | none => ⟨none, 1⟩
            | some (t2, e2m, r2) =>
              let base := e1 + t + e2 + 200 + t2
              match e2m with
              | some msg2 => ⟨some (.rejected (strOr msg2 "Retry failed"), base), 1⟩
              | none =>
                match r2 with
                | none => ⟨some (.resolved (.obj true none), base), 1⟩
                | some p => ⟨some (.resolved p, base), 1⟩
          else ⟨some (.rejected m, e1 + t), 0⟩
        | none =>
          match r with
          | none => ⟨some (.resolved (.obj true none), e1 + t), 0⟩
          | some p => ⟨some (.resolved p, e1 + t), 0⟩

/-- The client's local mirror of the playback state
(`AudioService.currentState`). -/
structure MirrorState where
  isPlaying : Bool
  currentTime : ℚ
  duration : ℚ
  volume : ℚ
  isMuted : Bool
deriving DecidableEq, Repr

/-- The mirror update `AudioService.setVolume` applies after the
`SET_VOLUME` round trip succeeds:
`volume = v` and `isMuted = (v === 0)`. -/
def clientSetVolumeApply (s : MirrorState) (v : ℚ) : MirrorState :=
  { s with volume := v, isMuted := decide (v = 0) }

/-- The literal `lastError` message Chrome reports when no receiver for
a message exists. -/
def connErrMsg : String :=
  "Could not establish connection. Receiving end does not exist."

/-- Wholesale replacement of the client mirror by an
`AUDIO_STATE_UPDATE` snapshot (the `onMessage` listener of the client). -/
def clientApplyUpdate (_s : MirrorState) (p : PubState) : MirrorState :=
  ⟨p.isPlaying, p.currentTime, p.duration, p.volume, p.isMuted⟩

/-- The scenario of the bootstrap-bound property: chrome APIs exist, but
no Host context can come into being, so the command's own send either
gets no callback at all or gets the no-receiver channel error. -/
def hostGone (env : SendEnv) : Prop :=
  env.chromeOk = true ∧
  (env.first = none ∨ ∃ t r, env.first = some (t, some connErrMsg, r))

/-- A freshly initialised offscreen document (element created at
start-up, nothing loaded). -/
def demoElem : AudioElem := ⟨none, 1, true, 0, 0⟩

/-- A freshly initialised Host. -/
def demoHost : Host := ⟨⟨false, 0, 0, 1, false, none⟩, some demoElem⟩

/-- A freshly initialised client mirror. -/
def demoMirror : MirrorState := ⟨false, 0, 0, 1, false⟩

/-- A concrete url used for the failing-load evaluation. -/
def c2Url : String := "https://server.example/001.mp3"

/-- A concrete url with the Host already loaded and bound to it. -/
def wUrl : String := "https://server.example/002.mp3"

/-- A Host already loaded and bound to `wUrl`. -/
def wHost : Host :=
  ⟨⟨false, 12, 90, 1, false, some wUrl⟩, some ⟨some wUrl, 1, true, 12, 4⟩⟩

/-- An ensure run that finds the document present and gets an immediate
ready ping. -/
def quickEnsure : EnsureEnv := ⟨true, none, true, some (0, none, some true)⟩

/-- A send whose first attempt gets the no-receiver error at 100 ms and
whose retry would have succeeded. -/
def cexEnv : SendEnv :=
  ⟨true, quickEnsure, some (100, some connErrMsg, none), quickEnsure,
   some (0, none, none)⟩

/-- A send whose first attempt resolves with no error and no payload. -/
def implicitEnv : SendEnv :=
  ⟨true, quickEnsure, some (40, none, none), quickEnsure, none⟩

/-- A send whose first attempt errors (not the no-receiver error) and
whose resend then resolves with no error and no payload. -/
def implicitRetryEnv : SendEnv :=
  ⟨true, quickEnsure, some (40, some "The message port closed before a response was received.", none),
   quickEnsure, some (10, none, none)⟩

/-- A send whose first attempt errors (not the no-receiver error) and
whose resend errors again. -/
def doubleFailEnv : SendEnv :=
  ⟨true, quickEnsure, some (40, some "A listener indicated an asynchronous response by returning true, but the message channel closed", none),
   quickEnsure, some (10, some "boom", none)⟩

/-- A send in the `hostGone` scenario: the command's callback reports
the no-receiver error at 100 ms. -/
def goneEnv : SendEnv :=
  ⟨true, ⟨false, none, false, none⟩, some (100, some connErrMsg, none),
   ⟨false, none, false, none⟩, none⟩

/-! ## Helper lemmas -/

theorem connErr_sub : strHasSub connErrMsg "Could not establish connection" = true := by
  decide

theorem strOr_conn : strOr connErrMsg "Unknown error" = connErrMsg := by
  decide

theorem retryCond_conn (m : String) : retryCond m connErrMsg = false := by
  simp [retryCond, connErr_sub]

theorem pingElapsed_le (p : Option (Nat × Option String × Option Bool)) :
    pingElapsed p ≤ 1200 := by
  rcases p with _ | ⟨t, e, r⟩
  · simp [pingElapsed]
  · simp only [pingElapsed]
    split
    · omega
    · split <;> omega

theorem ensureElapsed_le (env : EnsureEnv) : ensureElapsed env ≤ 1700 := by
  obtain ⟨d1, c, d2, p⟩ := env
  have hp := pingElapsed_le p
  cases d1 <;> cases d2 <;>
    rcases c with _ | ⟨t, _ | msg⟩ <;>
      simp only [ensureElapsed] <;> split_ifs <;> omega

/-! ## Claim theorems: Playback Host -/

/-- Claim C2 (code evaluation at the failing input): on a fresh Host with
nothing loaded, a `LOAD_AUDIO` whose resource fires the error event
responds with failure, yet leaves `currentState.url` pointing at the
non-functional resource — the handler assigns the url before the load
outcome is known. -/
theorem load_failure_sets_url :
    (handleLoad demoHost (some c2Url) .errorEvt).2.1 = .err "Failed to load audio" ∧
    (handleLoad demoHost (some c2Url) .errorEvt).1.state.url = some c2Url ∧
    demoHost.state.url = none := by
  decide

/-- Claim C3 (counterexample): a `SET_MUTED(true)` mutates the Host
state (`isMuted` flips) but its handler emits no `AUDIO_STATE_UPDATE`
broadcast, refuting "every state-mutating command triggers a StateUpdate
broadcast after the mutation is applied". -/
theorem setters_no_broadcast_cex :
    (handleSetMuted demoHost true).2.2.countP HostEmit.isStateUpd = 0 ∧
    (handleSetMuted demoHost true).1.state.isMuted = true ∧
    demoHost.state.isMuted ≠ true := by
  decide

/-- Claim C3 (amended): the `SET_TIME`, `SET_VOLUME` and `SET_MUTED`
handlers apply their mutation and respond without emitting any
`AUDIO_STATE_UPDATE` broadcast; broadcasts come only from the audio
element's own events and the playback heartbeat. -/
theorem setters_no_broadcast (h : Host) (v t : JSNum) (sa m : Bool) :
    (handleSetVolume h v sa).2.2.countP HostEmit.isStateUpd = 0 ∧
    (handleSetMuted h m).2.2.countP HostEmit.isStateUpd = 0 ∧
    (handleSetTime h t).2.2.countP HostEmit.isStateUpd = 0 := by
  refine ⟨?_, ?_, ?_⟩
  · unfold handleSetVolume
    split
    · cases sa <;> simp [List.countP, List.countP.go, HostEmit.isStateUpd]
    · simp [List.countP, List.countP.go]
  · simp [handleSetMuted, List.countP, List.countP.go]
  · unfold handleSetTime
    rcases h with ⟨s, _ | a⟩ <;> simp only
    · simp [List.countP, List.countP.go]
    · split <;> simp [List.countP, List.countP.go]

/-- Claim C5: a `LOAD_AUDIO` for the url the Host is already loaded and
bound to is a complete no-op that responds success (whatever the load
outcome parameter would have been), leaves `currentTime` unchanged, and
a second identical `LOAD_AUDIO` responds success again. -/
theorem load_idempotent (h : Host) (u : String) (a : AudioElem)
    (ha : h.audio = some a) (hu : h.state.url = some u) (hsrc : a.src = some u)
    (hne : u ≠ "") (oc oc' : LoadOutcome) :
    handleLoad h (some u) oc = (h, .ok, []) ∧
    (handleLoad h (some u) oc).1.state.currentTime = h.state.currentTime ∧
    (handleLoad (handleLoad h (some u) oc).1 (some u) oc').2.1 = .ok := by
  have h1 : handleLoad h (some u) oc = (h, .ok, []) := by
    unfold handleLoad createAudioElement
    simp [ha, hu, hsrc, hne]
  refine ⟨h1, by rw [h1], ?_⟩
  rw [h1]
  have h2 : handleLoad h (some u) oc' = (h, .ok, []) := by
    unfold handleLoad createAudioElement
    simp [ha, hu, hsrc, hne]
  rw [h2]

/-- Claim C5 witness: both loads succeed on a concrete already-loaded
Host. -/
theorem load_idempotent_witness :
    handleLoad wHost (some wUrl) .canplay = (wHost, .ok, []) ∧
    (handleLoad wHost (some wUrl) .canplay).1.state.currentTime = wHost.state.currentTime ∧
    (handleLoad (handleLoad wHost (some wUrl) .canplay).1 (some wUrl) .canplay).2.1 = .ok :=
  load_idempotent wHost wUrl ⟨some wUrl, 1, true, 12, 4⟩ rfl rfl rfl (by decide)
    .canplay .canplay

/-- Claim C6: a finite `SET_VOLUME` level in [0,1] succeeds and a
subsequent `GET_STATE` reports exactly that volume; any other level
(NaN, the infinities, or a finite level outside [0,1]) is rejected with
the invalid-volume error and the Host is left completely unchanged. -/
theorem setVolume_bound (h : Host) (sa : Bool) :
    (∀ q : ℚ, 0 ≤ q → q ≤ 1 →
      (handleSetVolume h (.fin q) sa).2.1 = .ok ∧
      (handleSetVolume h (.fin q) sa).1.state.volume = q ∧
      (handleGetState (handleSetVolume h (.fin q) sa).1).2.1 =
        .okState (snapshot (handleSetVolume h (.fin q) sa).1.state) ∧
      (snapshot (handleSetVolume h (.fin q) sa).1.state).volume = q) ∧
    (∀ v : JSNum, volOk v = false →
      handleSetVolume h v sa = (h, .err "Invalid volume", [])) := by
  constructor
  · intro q h0 h1
    have hv : volOk (.fin q) = true := by
      simp [volOk, JSNum.isFinite, jsLe]
      exact ⟨h0, h1⟩
    refine ⟨?_, ?_, rfl, ?_⟩ <;>
      simp [handleSetVolume, hv, handleGetState, snapshot, JSNum.toQ]
  · intro v hv
    simp [handleSetVolume, hv]

/-- Claim C6 witness: `SET_VOLUME(0.7)` succeeds and is reported back;
`SET_VOLUME(NaN)` fails and changes nothing. -/
theorem setVolume_bound_witness :
    ((handleSetVolume demoHost (.fin (7/10)) true).2.1 = .ok ∧
     (handleSetVolume demoHost (.fin (7/10)) true).1.state.volume = 7/10 ∧
     (handleGetState (handleSetVolume demoHost (.fin (7/10)) true).1).2.1 =
       .okState (snapshot (handleSetVolume demoHost (.fin (7/10)) true).1.state) ∧
     (snapshot (handleSetVolume demoHost (.fin (7/10)) true).1.state).volume = 7/10) ∧
    handleSetVolume demoHost .nan true = (demoHost, .err "Invalid volume", []) :=
  ⟨(setVolume_bound demoHost true).1 (7/10) (by norm_num) (by norm_num),
   (setVolume_bound demoHost true).2 .nan (by decide)⟩

/-- Claim C7: `SET_MUTED(flag)` stores only the flag (the stored volume
and every other state field are untouched) and applies the effective
gain `flag ? 0 : volume` to the element; in the scenario
`SET_VOLUME(0.7); SET_MUTED(true)`, `GET_STATE` reports volume 0.7 and
muted, and a following `SET_MUTED(false)` restores the audible gain 0.7
without a further `SET_VOLUME`. -/
theorem mute_independent (h : Host) (a : AudioElem) (ha : h.audio = some a)
    (m sa : Bool) :
    handleSetMuted h m =
      (⟨{ h.state with isMuted := m },
        some { a with volume := if m then 0 else h.state.volume }⟩, .ok, []) ∧
    (let h1 := (handleSetVolume h (.fin (7/10)) sa).1
     let h2 := (handleSetMuted h1 true).1
     let h3 := (handleSetMuted h2 false).1
     (handleGetState h2).2.1 = .okState (snapshot h2.state) ∧
     (snapshot h2.state).volume = 7/10 ∧
     (snapshot h2.state).isMuted = true ∧
     h3.audio = some { a with volume := 7/10 } ∧
     h3.state.volume = 7/10 ∧ h3.state.isMuted = false) := by
  have hv : volOk (.fin (7/10)) = true := by
    simp [volOk, JSNum.isFinite, jsLe]
    norm_num
  constructor
  · simp [handleSetMuted, ha]
  · simp [handleSetVolume, hv, handleSetMuted, handleGetState, snapshot,
      JSNum.toQ, ha]

/-- Claim C7 witness: the mute scenario on a concrete fresh Host. -/
theorem mute_independent_witness :
    handleSetMuted demoHost true =
      (⟨{ demoHost.state with isMuted := true },
        some { demoElem with volume := if true then 0 else demoHost.state.volume }⟩,
       .ok, []) ∧
    (let h1 := (handleSetVolume demoHost (.fin (7/10)) true).1
     let h2 := (handleSetMuted h1 true).1
     let h3 := (handleSetMuted h2 false).1
     (handleGetState h2).2.1 = .okState (snapshot h2.state) ∧
     (snapshot h2.state).volume = 7/10 ∧
     (snapshot h2.state).isMuted = true ∧
     h3.audio = some { demoElem with volume := 7/10 } ∧
     h3.state.volume = 7/10 ∧ h3.state.isMuted = false) :=
  mute_independent demoHost demoElem rfl true true

/-- Claim C9: the `ended` listener resets `isPlaying` and `currentTime`,
broadcasts exactly one `AUDIO_STATE_UPDATE`, emits exactly one separate
`AUDIO_ENDED` notification, and neither loads nor starts anything: the
stored url and the audio element are untouched. -/
theorem ended_handler (h : Host) (a : AudioElem) (ha : h.audio = some a) :
    handleEnded h =
      (⟨{ h.state with isPlaying := false, currentTime := 0 }, h.audio⟩,
       [.stateUpdate (snapshot { h.state with isPlaying := false, currentTime := 0 }),
        .audioEnded]) ∧
    (handleEnded h).2.countP HostEmit.isEnded = 1 ∧
    (handleEnded h).2.countP HostEmit.isStateUpd = 1 ∧
    (handleEnded h).1.state.url = h.state.url ∧
    (handleEnded h).1.audio = h.audio := by
  have he : handleEnded h =
      (⟨{ h.state with isPlaying := false, currentTime := 0 }, h.audio⟩,
       [.stateUpdate (snapshot { h.state with isPlaying := false, currentTime := 0 }),
        .audioEnded]) := by
    simp [handleEnded, ha]
  refine ⟨he, ?_, ?_, ?_, ?_⟩ <;> rw [he] <;>
    simp [List.countP, List.countP.go, HostEmit.isEnded, HostEmit.isStateUpd]

/-- Claim C9 witness: the ended event on a concrete Host. -/
theorem ended_handler_witness :
    handleEnded demoHost =
      (⟨{ demoHost.state with isPlaying := false, currentTime := 0 }, demoHost.audio⟩,
       [.stateUpdate (snapshot { demoHost.state with isPlaying := false, currentTime := 0 }),
        .audioEnded]) ∧
    (handleEnded demoHost).2.countP HostEmit.isEnded = 1 ∧
    (handleEnded demoHost).2.countP HostEmit.isStateUpd = 1 ∧
    (handleEnded demoHost).1.state.url = demoHost.state.url ∧
    (handleEnded demoHost).1.audio = demoHost.audio :=
  ended_handler demoHost demoElem rfl

/-! ## Claim theorems: Controller Client -/

/-- Claim C1 (counterexample): a `PLAY` whose send reports the
no-receiver channel error ("Could not establish connection. Receiving
end does not exist.") is rejected immediately with zero resends — even
though the configured retry would have succeeded — refuting the claim
that exactly such errors get one retry. -/
theorem conn_err_no_retry_cex :
    sendRun "PLAY" cexEnv = ⟨some (.rejected connErrMsg, 100), 0⟩ ∧
    (sendRun "PLAY" cexEnv).resends ≠ 1 := by
  decide

/-- Claim C1 (amended): the client retries exactly when the first send
errors, the command is not `CREATE_OFFSCREEN`, and the error does NOT
indicate the receiving end never registered (its message does not
contain "Could not establish connection"): then it re-runs the ensure
bootstrap, waits 200 ms, resends exactly once, and a failing resend is
surfaced with no further retries.  An error that does indicate the
receiving end never registered is surfaced immediately with no retry. -/
theorem retry_policy (msgType : String) (env : SendEnv) (t : Nat) (e : String)
    (r : Option Payload) (hok : env.chromeOk = true)
    (hfirst : env.first = some (t, some e, r)) (ht : t < 5000) :
    (retryCond msgType (strOr e "Unknown error") = true →
      (sendRun msgType env).resends = 1 ∧
      (∀ t2 e2 r2, env.retryCb = some (t2, some e2, r2) →
        (sendRun msgType env).outcome =
          some (.rejected (strOr e2 "Retry failed"),
            ensureElapsed env.ensure1 + t + ensureElapsed env.ensure2 + 200 + t2))) ∧
    (retryCond msgType (strOr e "Unknown error") = false →
      sendRun msgType env =
        ⟨some (.rejected (strOr e "Unknown error"), ensureElapsed env.ensure1 + t), 0⟩) := by
  have ht' : ¬ 5000 ≤ t := by omega
  constructor
  · intro hrc
    constructor
    · cases hr : env.retryCb with
      | none => simp [sendRun, hok, hfirst, ht', hrc, hr]
      | some x =>
        obtain ⟨t2, e2, r2⟩ := x
        cases e2 with
        | none =>
          cases r2 with
          | none => simp [sendRun, hok, hfirst, ht', hrc, hr]
          | some p => simp [sendRun, hok, hfirst, ht', hrc, hr]
        | some m2 => simp [sendRun, hok, hfirst, ht', hrc, hr]
    · intro t2 e2 r2 hr
      simp [sendRun, hok, hfirst, ht', hrc, hr]
  · intro hrc
    simp [sendRun, hok, hfirst, ht', hrc]

/-- Claim C1 witness: a concrete double failure takes exactly one
resend and surfaces the second error; the concrete no-receiver error is
surfaced with no resend. -/
theorem retry_policy_witness :
    ((sendRun "PLAY" doubleFailEnv).resends = 1 ∧
     (sendRun "PLAY" doubleFailEnv).outcome =
       some (.rejected (strOr "boom" "Retry failed"),
         ensureElapsed doubleFailEnv.ensure1 + 40 + ensureElapsed doubleFailEnv.ensure2 + 200 + 10)) ∧
    sendRun "PLAY" cexEnv =
      ⟨some (.rejected (strOr connErrMsg "Unknown error"),
        ensureElapsed cexEnv.ensure1 + 100), 0⟩ :=
  ⟨⟨((retry_policy "PLAY" doubleFailEnv 40
        "A listener indicated an asynchronous response by returning true, but the message channel closed"
        none rfl rfl (by omega)).1 (by decide)).1,
    ((retry_policy "PLAY" doubleFailEnv 40
        "A listener indicated an asynchronous response by returning true, but the message channel closed"
        none rfl rfl (by omega)).1 (by decide)).2 10 "boom" none rfl⟩,
   (retry_policy "PLAY" cexEnv 100 connErrMsg none rfl rfl (by omega)).2 (by decide)⟩

/-- Claim C4: if the Host context cannot come into being, a command send
settles — it never hangs — with a rejection, after at most one resend
and within a bounded wall-clock time (the bootstrap settle delays plus
one 5 s timeout: at most 6700 ms). -/
theorem bounded_failure (msgType : String) (env : SendEnv) (hg : hostGone env) :
    ∃ m T, (sendRun msgType env).outcome = some (.rejected m, T) ∧
      T ≤ 6700 ∧ (sendRun msgType env).resends ≤ 1 := by
  obtain ⟨hok, hf⟩ := hg
  have he1 := ensureElapsed_le env.ensure1
  rcases hf with h0 | ⟨t, r, hfst⟩
  · have hs : sendRun msgType env =
        ⟨some (.rejected "Message timeout: No response received",
          ensureElapsed env.ensure1 + 5000), 0⟩ := by
      simp [sendRun, hok, h0]
    exact ⟨_, _, by rw [hs], by omega, by rw [hs]; exact Nat.zero_le _⟩
  · by_cases ht : 5000 ≤ t
    · have hs : sendRun msgType env =
          ⟨some (.rejected "Message timeout: No response received",
            ensureElapsed env.ensure1 + 5000), 0⟩ := by
        simp [sendRun, hok, hfst, ht, strOr_conn, retryCond_conn]
      exact ⟨_, _, by rw [hs], by omega, by rw [hs]; exact Nat.zero_le _⟩
    · have hs : sendRun msgType env =
          ⟨some (.rejected connErrMsg, ensureElapsed env.ensure1 + t), 0⟩ := by
        simp [sendRun, hok, hfst, ht, strOr_conn, retryCond_conn]
      exact ⟨_, _, by rw [hs], by omega, by rw [hs]; exact Nat.zero_le _⟩

/-- Claim C4 witness: the bound at a concrete absent-Host scenario. -/
theorem bounded_failure_witness :
    ∃ m T, (sendRun "PLAY" goneEnv).outcome = some (.rejected m, T) ∧
      T ≤ 6700 ∧ (sendRun "PLAY" goneEnv).resends ≤ 1 :=
  bounded_failure "PLAY" goneEnv ⟨rfl, Or.inr ⟨100, none, rfl⟩⟩

/-- Claim C8: a send whose channel reports no error and delivers no
response value resolves with the implicit success `{success: true}`, on
the first attempt and equally on the resend. -/
theorem absent_response_ok (msgType : String) (env : SendEnv)
    (hok : env.chromeOk = true) :
    (∀ t, env.first = some (t, none, none) → t < 5000 →
      sendRun msgType env =
        ⟨some (.resolved (.obj true none), ensureElapsed env.ensure1 + t), 0⟩) ∧
    (∀ t e r t2, env.first = some (t, some e, r) → t < 5000 →
      retryCond msgType (strOr e "Unknown error") = true →
      env.retryCb = some (t2, none, none) →
      sendRun msgType env =
        ⟨some (.resolved (.obj true none),
          ensureElapsed env.ensure1 + t + ensureElapsed env.ensure2 + 200 + t2), 1⟩) := by
  constructor
  · intro t hf ht
    have ht' : ¬ 5000 ≤ t := by omega
    simp [sendRun, hok, hf, ht']
  · intro t e r t2 hf ht hrc hr
    have ht' : ¬ 5000 ≤ t := by omega
    simp [sendRun, hok, hf, ht', hrc, hr]

/-- Claim C8 witness: implicit success at concrete first-attempt and
retry scenarios. -/
theorem absent_response_ok_witness :
    sendRun "PLAY" implicitEnv =
      ⟨some (.resolved (.obj true none), ensureElapsed implicitEnv.ensure1 + 40), 0⟩ ∧
    sendRun "PLAY" implicitRetryEnv =
      ⟨some (.resolved (.obj true none),
        ensureElapsed implicitRetryEnv.ensure1 + 40 +
          ensureElapsed implicitRetryEnv.ensure2 + 200 + 10), 1⟩ :=
  ⟨(absent_response_ok "PLAY" implicitEnv rfl).1 40 rfl (by omega),
   (absent_response_ok "PLAY" implicitRetryEnv rfl).2 40
     "The message port closed before a response was received." none 10 rfl
     (by omega) (by decide) rfl⟩

/-- Claim C10: after a successful client `setVolume(v)` the local mirror
holds `volume = v` and `isMuted = (v == 0)`, while the Host's
`SET_VOLUME` handler leaves the Host's `isMuted` unchanged; so for
`v = 0` on an unmuted Host the two disagree on `isMuted`, until a
`StateUpdate` snapshot wholesale-replaces the mirror and restores
agreement. -/
theorem mirror_divergence (c : MirrorState) (h : Host) (sa : Bool) (v : ℚ)
    (h0 : 0 ≤ v) (h1 : v ≤ 1) :
    (clientSetVolumeApply c v).volume = v ∧
    (clientSetVolumeApply c v).isMuted = decide (v = 0) ∧
    (handleSetVolume h (.fin v) sa).2.1 = .ok ∧
    (handleSetVolume h (.fin v) sa).1.state.isMuted = h.state.isMuted ∧
    (v = 0 → h.state.isMuted = false →
      (clientSetVolumeApply c v).isMuted ≠ (handleSetVolume h (.fin v) sa).1.state.isMuted) ∧
    (clientApplyUpdate (clientSetVolumeApply c v)
        (snapshot (handleSetVolume h (.fin v) sa).1.state)).isMuted =
      (handleSetVolume h (.fin v) sa).1.state.isMuted := by
  have hv : volOk (.fin v) = true := by
    simp [volOk, JSNum.isFinite, jsLe]
    exact ⟨h0, h1⟩
  refine ⟨rfl, rfl, ?_, ?_, ?_, ?_⟩
  · simp [handleSetVolume, hv]
  · simp [handleSetVolume, hv]
  · intro hv0 hm
    subst hv0
    simp [clientSetVolumeApply, handleSetVolume, hv, hm]
  · simp [clientApplyUpdate, snapshot]

/-- Claim C10 witness: `setVolume(0)` on an unmuted Host makes the
mirror muted while the Host stays unmuted. -/
theorem mirror_divergence_witness :
    (clientSetVolumeApply demoMirror 0).volume = 0 ∧
    (clientSetVolumeApply demoMirror 0).isMuted = decide ((0 : ℚ) = 0) ∧
    (handleSetVolume demoHost (.fin 0) true).2.1 = .ok ∧
    (handleSetVolume demoHost (.fin 0) true).1.state.isMuted = demoHost.state.isMuted ∧
    ((0 : ℚ) = 0 → demoHost.state.isMuted = false →
      (clientSetVolumeApply demoMirror 0).isMuted ≠
        (handleSetVolume demoHost (.fin 0) true).1.state.isMuted) ∧
    (clientApplyUpdate (clientSetVolumeApply demoMirror 0)
        (snapshot (handleSetVolume demoHost (.fin 0) true).1.state)).isMuted =
      (handleSetVolume demoHost (.fin 0) true).1.state.isMuted :=
  mirror_divergence demoMirror demoHost true 0 (by norm_num) (by norm_num)
